import Mathlib

/-!
Verification of the GreenSteps quiz-submission pipeline.

This file gives a shallow embedding of the pipeline implemented in
`src/lib/carbon.ts`, `src/lib/ai.ts`, `src/lib/geo.ts`, `src/lib/schemas.ts`
and `src/app/actions.ts`, and proves properties of it.

Modelling conventions:
- JavaScript numbers are modelled as `Rat` (all constants of the source are
  exact decimals); counts validated as integers are `Int`.
- `Math.round` is `round : Rat → Int` (both are floor of `x + 1/2`).
- An `async` function that may reject is modelled as returning
  `Except String α`; a `try`/`catch` boundary is a `match` on that value.
- Each outbound network call is an oracle parameter describing the remote
  behaviour for that call (`NetResult`, `CompletionOutcome`, `GeoOutcome`);
  environment variables are explicit environment records.
- A JavaScript object used as a string-keyed map with insertion order
  (the breakdown) is a `List (String × Rat)`.
-/

namespace GreenSteps

/-- Diet answer, from `src/lib/types.ts` (`DietType`). -/
inductive Diet where
  | omnivore
  | vegetarian
  | vegan
  | pescatarian
deriving DecidableEq, Repr

/-- Home heating answer, from `src/lib/types.ts`. -/
inductive HomeHeating where
  | gas
  | electric
  | heat_pump
  | other
deriving DecidableEq, Repr

/-- Recycling habit answer, from `src/lib/types.ts`. -/
inductive RecyclingHabit where
  | rarely
  | sometimes
  | often
  | always
deriving DecidableEq, Repr

/-- Transport mode answer, from `src/lib/types.ts` (`TransportMode`). -/
inductive TransportMode where
  | car
  | public_transit
  | bike_walk
  | mixed
deriving DecidableEq, Repr

/-- Validated quiz answers, from `src/lib/types.ts` (`QuizAnswers`).
`flightsShortHaulPerYear` is validated to be an integer, so it is `Int`. -/
structure QuizAnswers where
  diet : Diet
  weeklyMilesDriven : Rat
  electricityKwhPerMonth : Rat
  homeHeating : HomeHeating
  flightsShortHaulPerYear : Int
  recyclingHabit : RecyclingHabit
  transportMode : TransportMode
deriving DecidableEq, Repr

/-- Input of the carbon estimator, from `src/lib/types.ts`
(`CarbonEstimateInput`). -/
structure CarbonEstimateInput where
  weeklyMilesDriven : Rat
  electricityKwhPerMonth : Rat
  homeHeating : HomeHeating
  flightsShortHaulPerYear : Int
deriving DecidableEq, Repr

/-- Result of the carbon estimator, from `src/lib/types.ts`
(`CarbonEstimateResult`). The breakdown keeps insertion order. -/
structure CarbonEstimateResult where
  kgCO2ePerYear : Int
  breakdown : List (String × Rat)
deriving DecidableEq, Repr

/-- Environment of `src/lib/carbon.ts`: the `CARBON_INTERFACE_API_KEY`
environment variable. -/
structure CarbonEnv where
  apiKey : Option String
deriving DecidableEq, Repr

/-- Remote behaviour of one `fetch` to the carbon provider:
either the transport fails or a non-2xx status comes back (`netError`),
or a 2xx reply with `data?.attributes?.carbon_kg` present or absent. -/
inductive NetResult where
  | netError
  | ok (carbon_kg : Option Rat)
deriving DecidableEq, Repr

/-- `postCarbon` from `src/lib/carbon.ts` lines 5-24: throws when the
`CARBON_INTERFACE_API_KEY` is missing, throws on a non-ok status, and
otherwise resolves with the parsed body (projected to `carbon_kg`). -/
def postCarbon (env : CarbonEnv) (net : NetResult) : Except String (Option Rat) :=
  match env.apiKey with
  | none => Except.error ("Missing CARBON_INTERFACE_API_KEY")
  | some _ =>
    match net with
    | NetResult.netError => Except.error ("Carbon API error")
    | NetResult.ok kg => Except.ok kg

/-- Which of the two carbon-provider calls were issued during one
`estimateCarbon` run. -/
structure CarbonCalls where
  driving : Bool
  electricity : Bool
deriving DecidableEq, Repr

/-- Driving block of `estimateCarbon` (`src/lib/carbon.ts` lines 33-51):
breakdown entries appended and amount added to the running total.
On a caught error, and on a reply without `carbon_kg`, the fallback
`annualMiles * 0.404` is used. -/
def drivingPart (env : CarbonEnv) (net : NetResult)
    (input : CarbonEstimateInput) : List (String × Rat) × Rat :=
  if 0 < input.weeklyMilesDriven then
    let annualMiles := input.weeklyMilesDriven * 52
    let kg :=
      match postCarbon env net with
      | Except.ok data => data.getD (annualMiles * (404 / 1000 : Rat))
      | Except.error _ => annualMiles * (404 / 1000 : Rat)
    ([("driving", kg)], kg)
  else ([], 0)

/-- Electricity block of `estimateCarbon` (`src/lib/carbon.ts` lines 54-73),
with fallback `annualKwh * 0.4`. -/
def electricityPart (env : CarbonEnv) (net : NetResult)
    (input : CarbonEstimateInput) : List (String × Rat) × Rat :=
  if 0 < input.electricityKwhPerMonth then
    let annualKwh := input.electricityKwhPerMonth * 12
    let kg :=
      match postCarbon env net with
      | Except.ok data => data.getD (annualKwh * (4 / 10 : Rat))
      | Except.error _ => annualKwh * (4 / 10 : Rat)
    ([("electricity", kg)], kg)
  else ([], 0)

/-- Heating block of `estimateCarbon` (`src/lib/carbon.ts` lines 76-85):
a pure lookup, nothing appended for `other`. -/
def heatingPart (input : CarbonEstimateInput) : List (String × Rat) × Rat :=
  match input.homeHeating with
  | HomeHeating.gas => ([("heating", 1000)], 1000)
  | HomeHeating.electric => ([("heating", 700)], 700)
  | HomeHeating.heat_pump => ([("heating", 300)], 300)
  | HomeHeating.other => ([], 0)

/-- Flights block of `estimateCarbon` (`src/lib/carbon.ts` lines 88-92). -/
def flightsPart (input : CarbonEstimateInput) : List (String × Rat) × Rat :=
  if 0 < input.flightsShortHaulPerYear then
    let kg : Rat := (input.flightsShortHaulPerYear * 250 : Int)
    ([("flights", kg)], kg)
  else ([], 0)

/-- `estimateCarbon` from `src/lib/carbon.ts` lines 28-95, with the two
provider calls given as oracles. Also reports which calls were issued
(`await postCarbon` executes exactly when the guarding `if` is taken). -/
def estimateCarbon (env : CarbonEnv) (drivingNet electricityNet : NetResult)
    (input : CarbonEstimateInput) : CarbonEstimateResult × CarbonCalls :=
  let d := drivingPart env drivingNet input
  let e := electricityPart env electricityNet input
  let h := heatingPart input
  let f := flightsPart input
  let breakdown := d.1 ++ e.1 ++ h.1 ++ f.1
  let total := d.2 + e.2 + h.2 + f.2
  ({ kgCO2ePerYear := max 0 (round total), breakdown := breakdown },
   { driving := decide (0 < input.weeklyMilesDriven),
     electricity := decide (0 < input.electricityKwhPerMonth) })

/-- `estimateCarbon` as its callers see the promise: every `await postCarbon`
in the body sits inside a `try`/`catch` whose `catch` produces the fallback
value, and the rest of the body is pure arithmetic, so the promise always
resolves: no error escapes to the caller. -/
def estimateCarbonE (env : CarbonEnv) (drivingNet electricityNet : NetResult)
    (input : CarbonEstimateInput) :
    Except String (CarbonEstimateResult × CarbonCalls) :=
  Except.ok (estimateCarbon env drivingNet electricityNet input)

/-- Regroup a reversed digit string into blocks of three, the comma layout
of `Number.prototype.toLocaleString` for the default locale. -/
def commaChunks : List Char → List Char
  | [] => []
  | [a] => [a]
  | [a, b] => [a, b]
  | [a, b, c] => [a, b, c]
  | a :: b :: c :: rest => a :: b :: c :: ',' :: commaChunks rest

/-- Digit grouping of a natural number, as `toLocaleString` renders it. -/
def natLocaleString (n : Nat) : String :=
  String.mk (List.reverse (commaChunks (String.toList (toString n)).reverse))

/-- `Number.prototype.toLocaleString` on an integer value. -/
def intLocaleString (n : Int) : String :=
  if n < 0 then "-" ++ natLocaleString n.natAbs else natLocaleString n.natAbs

/-- Template interpolation of a JavaScript number. It is exact on integers,
which are the only values the verified claims constrain; a non-integral
rational is rendered as a fraction. -/
def jsNumStr (q : Rat) : String :=
  if q.den = 1 then toString q.num
  else toString q.num ++ "/" ++ toString q.den

/-- The literal string of a `Diet` value, from `src/lib/types.ts`. -/
def dietStr : Diet → String
  | Diet.omnivore => "omnivore"
  | Diet.vegetarian => "vegetarian"
  | Diet.vegan => "vegan"
  | Diet.pescatarian => "pescatarian"

/-- The literal string of a `HomeHeating` value. -/
def heatingStr : HomeHeating → String
  | HomeHeating.gas => "gas"
  | HomeHeating.electric => "electric"
  | HomeHeating.heat_pump => "heat_pump"
  | HomeHeating.other => "other"

/-- The literal string of a `RecyclingHabit` value. -/
def recyclingStr : RecyclingHabit → String
  | RecyclingHabit.rarely => "rarely"
  | RecyclingHabit.sometimes => "sometimes"
  | RecyclingHabit.often => "often"
  | RecyclingHabit.always => "always"

/-- The literal string of a `TransportMode` value. -/
def transportStr : TransportMode → String
  | TransportMode.car => "car"
  | TransportMode.public_transit => "public_transit"
  | TransportMode.bike_walk => "bike_walk"
  | TransportMode.mixed => "mixed"

/-- A candidate tip of the local advice generator
(`src/lib/ai.ts` line 10): rendered text and hand-assigned impact. -/
structure Tip where
  text : String
  impact : Int
deriving DecidableEq, Repr

/-- Transport tip block (`src/lib/ai.ts` lines 12-20). -/
def transportTips (quiz : QuizAnswers) : List Tip :=
  if quiz.transportMode ≠ TransportMode.bike_walk ∨ 0 < quiz.weeklyMilesDriven then
    let reduceMiles := min quiz.weeklyMilesDriven 50
    let savedKg := round (reduceMiles * 52 * (404 / 1000 : Rat))
    [{ text := "Swap " ++ jsNumStr reduceMiles
        ++ " weekly car miles for transit/bike. ~" ++ intLocaleString savedKg
        ++ " kg CO₂e/yr"
       impact := savedKg }]
  else []

/-- Diet tip block (`src/lib/ai.ts` lines 22-29): skipped for vegans. -/
def dietTips (quiz : QuizAnswers) : List Tip :=
  if quiz.diet ≠ Diet.vegan then
    let savedKg : Int := if quiz.diet = Diet.omnivore then 1000 else 500
    [{ text := "Make 3–4 meals/week plant‑based. ~" ++ intLocaleString savedKg
        ++ " kg CO₂e/yr"
       impact := savedKg }]
  else []

/-- Electricity tip block (`src/lib/ai.ts` lines 31-39). -/
def electricityTips (quiz : QuizAnswers) : List Tip :=
  if 0 < quiz.electricityKwhPerMonth then
    let annual := quiz.electricityKwhPerMonth * 12
    let savedKg := round (annual * (15 / 100 : Rat) * (4 / 10 : Rat))
    [{ text := "Cut electricity by ~15% with LED + smart power strips. ~"
        ++ intLocaleString savedKg ++ " kg CO₂e/yr"
       impact := savedKg }]
  else []

/-- Heating tip block (`src/lib/ai.ts` lines 41-52). -/
def heatingTips (quiz : QuizAnswers) : List Tip :=
  match quiz.homeHeating with
  | HomeHeating.gas =>
    [{ text := "Seal drafts + tune thermostat (−2°F). Prep for heat‑pump when replacing furnace. ~1,000 kg CO₂e/yr"
       impact := 1000 }]
  | HomeHeating.electric =>
    [{ text := "Enroll in green power or community solar; set thermostat smart schedule. ~700 kg CO₂e/yr"
       impact := 700 }]
  | _ => []

/-- Flight tip block (`src/lib/ai.ts` lines 54-61): skipped at zero flights. -/
def flightTips (quiz : QuizAnswers) : List Tip :=
  if 0 < quiz.flightsShortHaulPerYear then
    let savedKg := quiz.flightsShortHaulPerYear * 250
    [{ text := "Replace one short‑haul flight with rail/virtual. ~"
        ++ intLocaleString savedKg ++ " kg CO₂e"
       impact := savedKg }]
  else []

/-- Recycling tip block (`src/lib/ai.ts` lines 63-69). -/
def recyclingTips (quiz : QuizAnswers) : List Tip :=
  if quiz.recyclingHabit = RecyclingHabit.rarely ∨
      quiz.recyclingHabit = RecyclingHabit.sometimes then
    [{ text := "Sort recycling + compost organics; cut landfill waste fees and emissions."
       impact := 100 }]
  else []

/-- The candidate tip catalogue, in the push order of the source. -/
def localTips (quiz : QuizAnswers) : List Tip :=
  transportTips quiz ++ dietTips quiz ++ electricityTips quiz
    ++ heatingTips quiz ++ flightTips quiz ++ recyclingTips quiz

/-- Descending-impact comparison used by `tips.sort((a, b) => b.impact - a.impact)`. -/
def tipGE (a b : Tip) : Prop := b.impact ≤ a.impact

instance : DecidableRel tipGE := fun a b =>
  inferInstanceAs (Decidable (b.impact ≤ a.impact))

instance : IsTotal Tip tipGE := ⟨fun a b => le_total b.impact a.impact⟩

instance : IsTrans Tip tipGE := ⟨fun _ _ _ h1 h2 => le_trans h2 h1⟩

/-- Stable descending sort of the tips (`src/lib/ai.ts` line 72). -/
def sortTipsDesc (l : List Tip) : List Tip := List.insertionSort tipGE l

/-- Footprint text of the local header (`src/lib/ai.ts` line 75):
the conditional-expression test is JavaScript truthiness, so the value `0`
takes the same branch as an absent value. -/
def localFootprintText (carbonKgPerYear : Option Int) : String :=
  match carbonKgPerYear with
  | some k => if k ≠ 0 then toString k ++ " kg CO₂e" else "N/A"
  | none => "N/A"

/-- Header of the local advice output (`src/lib/ai.ts` line 75). -/
def localHeader (locationSummary : Option String)
    (carbonKgPerYear : Option Int) : String :=
  "Location: " ++ locationSummary.getD ("Unknown")
    ++ "\nEstimated Annual Footprint: " ++ localFootprintText carbonKgPerYear

/-- `generateLocalAdvice` from `src/lib/ai.ts` lines 4-78. -/
def generateLocalAdvice (quiz : QuizAnswers) (locationSummary : Option String)
    (carbonKgPerYear : Option Int) : String :=
  let tips := localTips quiz
  let selected := (sortTipsDesc tips).take 3
  let header := localHeader locationSummary carbonKgPerYear
  let bullets := String.intercalate ("\n") (selected.map (fun t => "• " ++ t.text))
  header ++ "\n\n" ++ bullets

/-- Environment of the advice generators: `OPENAI_API_KEY`, `OPENAI_MODEL`
and `USE_FREE_AI` (the last one read as the comparison with the string 1). -/
structure AiEnv where
  openaiApiKey : Option String
  openaiModel : Option String
  useFreeAi : Bool
deriving DecidableEq, Repr

/-- Remote behaviour of one chat-completion call: the request rejects, or it
resolves and `choices[0]?.message?.content` is the given optional string. -/
inductive CompletionOutcome where
  | failure
  | ok (content : Option String)
deriving DecidableEq, Repr

/-- The configured completion model (`src/lib/ai.ts` line 85). -/
def adviceModel (env : AiEnv) : String :=
  env.openaiModel.getD ("gpt-4o-mini")

/-- Footprint text of the remote prompt (`src/lib/ai.ts` line 89): again a
truthiness test, so `0` renders like an absent value. -/
def promptFootprintText (carbonKgPerYear : Option Int) : String :=
  match carbonKgPerYear with
  | some k => if k ≠ 0 then toString k ++ " kg CO2e" else "N/A"
  | none => "N/A"

/-- The user message of the remote completion request
(`src/lib/ai.ts` lines 88-96; identical template in `src/unnamed/part_004`). -/
def adviceUserPrompt (quiz : QuizAnswers) (locationSummary : Option String)
    (carbonKgPerYear : Option Int) : String :=
  "Location: " ++ locationSummary.getD ("Unknown")
    ++ "\nEstimated Annual Footprint: " ++ promptFootprintText carbonKgPerYear
    ++ "\nDiet: " ++ dietStr quiz.diet
    ++ "\nTransport mode: " ++ transportStr quiz.transportMode
    ++ "; weekly miles: " ++ jsNumStr quiz.weeklyMilesDriven
    ++ "\nElectricity: " ++ jsNumStr quiz.electricityKwhPerMonth
    ++ " kWh/month; Heating: " ++ heatingStr quiz.homeHeating
    ++ "\nFlights (short-haul/yr): " ++ toString quiz.flightsShortHaulPerYear
    ++ "\nRecycling: " ++ recyclingStr quiz.recyclingHabit
    ++ "\n\nReturn actionable tips, ordered by potential impact in this context."

/-- The apology text used by the orchestrator guard (`src/app/actions.ts`
line 112). -/
def apologyText : String := "Unable to generate AI tips at this time."

/-- `generateAdvice` from `src/lib/ai.ts` lines 80-120: local mode when
`USE_FREE_AI` is set or the key is missing; otherwise one completion call
whose failure is caught and, like empty content, replaced by the local
output. The promise always resolves. -/
def generateAdvice (env : AiEnv) (remote : CompletionOutcome)
    (quiz : QuizAnswers) (locationSummary : Option String)
    (carbonKgPerYear : Option Int) : Except String String :=
  let useFree := env.useFreeAi || env.openaiApiKey.isNone
  if useFree then
    Except.ok (generateLocalAdvice quiz locationSummary carbonKgPerYear)
  else
    match remote with
    | CompletionOutcome.failure =>
      Except.ok (generateLocalAdvice quiz locationSummary carbonKgPerYear)
    | CompletionOutcome.ok contentOpt =>
      let content := contentOpt.getD ("")
      Except.ok (if content = "" then
          generateLocalAdvice quiz locationSummary carbonKgPerYear
        else content)

/-- `generateAdvice` from `src/unnamed/part_004` lines 6-36: a missing key
returns a fixed literal string, a failed completion call is NOT caught (the
promise rejects), and empty content comes back as the empty string. -/
def generateAdviceAlt (env : AiEnv) (remote : CompletionOutcome)
    (quiz : QuizAnswers) (locationSummary : Option String)
    (carbonKgPerYear : Option Int) : Except String String :=
  if env.openaiApiKey.isNone then
    Except.ok ("Set OPENAI_API_KEY to enable AI-generated tips.")
  else
    match remote with
    | CompletionOutcome.failure => Except.error ("OpenAI request failed")
    | CompletionOutcome.ok contentOpt => Except.ok (contentOpt.getD (""))

/-- Normalized geolocation record, from `src/lib/types.ts` (`GeoLocation`):
any subset of the four fields may be absent. -/
structure GeoLocation where
  ip : Option String
  city : Option String
  region : Option String
  country : Option String
deriving DecidableEq, Repr

/-- Remote behaviour of the one geolocation fetch: any failure (network
error, non-ok status, malformed body), or a reply normalized to the four
optional fields. Provider selection (`NEXT_PUBLIC_GEO_PROVIDER`) changes
only the URL, both branches normalize identically. -/
inductive GeoOutcome where
  | failure
  | ok (loc : GeoLocation)
deriving DecidableEq, Repr

/-- `lookupGeo` from `src/lib/geo.ts` lines 3-31: the whole body is inside a
`try` whose `catch` returns the empty object, so the promise always resolves. -/
def lookupGeo (outcome : GeoOutcome) : GeoLocation :=
  match outcome with
  | GeoOutcome.failure => { ip := none, city := none, region := none, country := none }
  | GeoOutcome.ok loc => loc

/-- Raw quiz fields as the orchestrator assembles them
(`src/app/actions.ts` lines 60-68): enum fields already strings, numeric
fields the result of `Number(...)` where `none` stands for `NaN`. -/
structure RawQuiz where
  diet : String
  weeklyMilesDriven : Option Rat
  electricityKwhPerMonth : Option Rat
  homeHeating : String
  flightsShortHaulPerYear : Option Rat
  recyclingHabit : String
  transportMode : String
deriving DecidableEq, Repr

/-- Parse of the `diet` enum of `quizSchema` (`src/lib/schemas.ts`). -/
def parseDiet (s : String) : Option Diet :=
  if s = "omnivore" then some Diet.omnivore
  else if s = "vegetarian" then some Diet.vegetarian
  else if s = "vegan" then some Diet.vegan
  else if s = "pescatarian" then some Diet.pescatarian
  else none

/-- Parse of the `homeHeating` enum of `quizSchema`. -/
def parseHeating (s : String) : Option HomeHeating :=
  if s = "gas" then some HomeHeating.gas
  else if s = "electric" then some HomeHeating.electric
  else if s = "heat_pump" then some HomeHeating.heat_pump
  else if s = "other" then some HomeHeating.other
  else none

/-- Parse of the `recyclingHabit` enum of `quizSchema`. -/
def parseRecycling (s : String) : Option RecyclingHabit :=
  if s = "rarely" then some RecyclingHabit.rarely
  else if s = "sometimes" then some RecyclingHabit.sometimes
  else if s = "often" then some RecyclingHabit.often
  else if s = "always" then some RecyclingHabit.always
  else none

/-- Parse of the `transportMode` enum of `quizSchema`. -/
def parseTransport (s : String) : Option TransportMode :=
  if s = "car" then some TransportMode.car
  else if s = "public_transit" then some TransportMode.public_transit
  else if s = "bike_walk" then some TransportMode.bike_walk
  else if s = "mixed" then some TransportMode.mixed
  else none

/-- Violations of one numeric field of `quizSchema`: a number in the given
range, and with zero fractional part when `requireInt` is set. Message
texts abbreviate the Zod originals; the field keys are the Zod
`fieldErrors` keys. -/
def numIssues (name : String) (lo hi : Rat) (requireInt : Bool)
    (v : Option Rat) : List (String × String) :=
  match v with
  | none => [(name, "Expected number, received nan")]
  | some x =>
    (if x < lo then [(name, "Number too small")] else [])
      ++ (if hi < x then [(name, "Number too big")] else [])
      ++ (if requireInt ∧ x.den ≠ 1 then
            [(name, "Expected integer, received float")] else [])

/-- Violation of one enum field of `quizSchema`. -/
def enumIssue (name : String) (ok : Bool) : List (String × String) :=
  if ok then [] else [(name, "Invalid enum value")]

/-- All violations of `quizSchema` against a raw record, every field
checked (Zod collects all issues, not only the first). -/
def quizIssues (raw : RawQuiz) : List (String × String) :=
  enumIssue ("diet") (parseDiet raw.diet).isSome
    ++ numIssues ("weeklyMilesDriven") 0 5000 false raw.weeklyMilesDriven
    ++ numIssues ("electricityKwhPerMonth") 0 20000 false raw.electricityKwhPerMonth
    ++ enumIssue ("homeHeating") (parseHeating raw.homeHeating).isSome
    ++ numIssues ("flightsShortHaulPerYear") 0 100 true raw.flightsShortHaulPerYear
    ++ enumIssue ("recyclingHabit") (parseRecycling raw.recyclingHabit).isSome
    ++ enumIssue ("transportMode") (parseTransport raw.transportMode).isSome

/-- `quizSchema.safeParse` from `src/lib/schemas.ts` lines 33-54: either the
fully typed record echoing the raw values, or the collected field errors.
The `getD` defaults are unreachable when the issue list is empty. -/
def quizSafeParse (raw : RawQuiz) : Except (List (String × String)) QuizAnswers :=
  if quizIssues raw = [] then
    Except.ok
      { diet := (parseDiet raw.diet).getD Diet.omnivore
        weeklyMilesDriven := (raw.weeklyMilesDriven).getD 0
        electricityKwhPerMonth := (raw.electricityKwhPerMonth).getD 0
        homeHeating := (parseHeating raw.homeHeating).getD HomeHeating.other
        flightsShortHaulPerYear := ((raw.flightsShortHaulPerYear).getD 0).num
        recyclingHabit := (parseRecycling raw.recyclingHabit).getD RecyclingHabit.often
        transportMode := (parseTransport raw.transportMode).getD TransportMode.mixed }
  else Except.error (quizIssues raw)

/-- The estimate record the orchestrator stores
(`src/app/actions.ts` line 88): `{ kg, breakdown }`. -/
structure EstimateView where
  kg : Int
  breakdown : List (String × Rat)
deriving DecidableEq, Repr

/-- `ProcessQuizResult` from `src/app/actions.ts` lines 29-41. -/
inductive ProcessQuizResult where
  | failure (error : String) (issues : List (String × String))
  | success (quiz : QuizAnswers) (location : GeoLocation)
      (estimate : Option EstimateView) (tips : String)
deriving DecidableEq, Repr

/-- The location summary string (`src/app/actions.ts` lines 83-85):
`[city, region, country].filter(Boolean).join(", ")`; `filter(Boolean)`
drops both absent fields and empty strings. -/
def locationSummary (geo : GeoLocation) : String :=
  String.intercalate (", ")
    ((([geo.city, geo.region, geo.country].filterMap id).filter
      (fun s => s != "")))

/-- The carbon-estimator argument the orchestrator builds
(`src/app/actions.ts` lines 90-95). -/
def quizToCarbonInput (quiz : QuizAnswers) : CarbonEstimateInput :=
  { weeklyMilesDriven := quiz.weeklyMilesDriven
    electricityKwhPerMonth := quiz.electricityKwhPerMonth
    homeHeating := quiz.homeHeating
    flightsShortHaulPerYear := quiz.flightsShortHaulPerYear }

/-- `processQuizAction` from `src/app/actions.ts` lines 53-125, abstracted
over the imported estimator and advice generator (each an arbitrary
fallible function, as the orchestrator sees only their promises):
validate and return early on failure; fetch location; run the estimator
under a `try`/`catch` that substitutes `null`; run the advice generator
under a `try`/`catch` that substitutes the apology text; assemble. -/
def processQuizCore
    (estFn : CarbonEstimateInput → Except String EstimateView)
    (adviceFn : QuizAnswers → String → Option Int → Except String String)
    (geo : GeoLocation) (raw : RawQuiz) : ProcessQuizResult :=
  match quizSafeParse raw with
  | Except.error issues => ProcessQuizResult.failure ("Invalid input") issues
  | Except.ok quiz =>
    let summary := locationSummary geo
    let estimate : Option EstimateView :=
      match estFn (quizToCarbonInput quiz) with
      | Except.ok r => some r
      | Except.error _ => none
    let tips :=
      match adviceFn quiz summary (estimate.map (fun e => e.kg)) with
      | Except.ok t => t
      | Except.error _ => apologyText
    ProcessQuizResult.success quiz geo estimate tips

/-- The full environment of one submission. -/
structure ServerEnv where
  carbon : CarbonEnv
  ai : AiEnv
deriving DecidableEq, Repr

/-- Remote behaviour of every outbound call a submission may issue. -/
structure RemoteWorld where
  geo : GeoOutcome
  drivingNet : NetResult
  electricityNet : NetResult
  completion : CompletionOutcome
deriving DecidableEq, Repr

/-- `processQuizAction` with its real collaborators plugged in. -/
def processQuizAction (env : ServerEnv) (world : RemoteWorld)
    (raw : RawQuiz) : ProcessQuizResult :=
  processQuizCore
    (fun i =>
      (estimateCarbonE env.carbon world.drivingNet world.electricityNet i).map
        (fun p => { kg := p.1.kgCO2ePerYear, breakdown := p.1.breakdown }))
    (fun quiz summary kg =>
      generateAdvice env.ai world.completion quiz (some summary) kg)
    (lookupGeo world.geo) raw

/-- Which outbound calls one submission issues. -/
structure CallLog where
  geoCalled : Bool
  drivingCalled : Bool
  electricityCalled : Bool
  completionCalled : Bool
deriving DecidableEq, Repr

/-- The calls `processQuizAction` issues: none on the early validation
return; otherwise the geolocation fetch, the estimator calls of
`estimateCarbon`, and the completion call exactly when `generateAdvice`
is not in local mode. -/
def processQuizCalls (env : ServerEnv) (world : RemoteWorld)
    (raw : RawQuiz) : CallLog :=
  match quizSafeParse raw with
  | Except.error _ =>
    { geoCalled := false, drivingCalled := false
      electricityCalled := false, completionCalled := false }
  | Except.ok quiz =>
    let calls :=
      (estimateCarbon env.carbon world.drivingNet world.electricityNet
        (quizToCarbonInput quiz)).2
    { geoCalled := true
      drivingCalled := calls.driving
      electricityCalled := calls.electricity
      completionCalled := !(env.ai.useFreeAi || env.ai.openaiApiKey.isNone) }

/-- Concrete environment with the carbon credential configured. -/
def envWithKey : CarbonEnv := { apiKey := some ("test-carbon-key") }

/-- Concrete environment with the carbon credential missing. -/
def envNoKey : CarbonEnv := { apiKey := none }

/-- The input of the worked example in the spec (§8). -/
def exampleInput : CarbonEstimateInput :=
  { weeklyMilesDriven := 50
    electricityKwhPerMonth := 400
    homeHeating := HomeHeating.electric
    flightsShortHaulPerYear := 2 }

/-- Concrete estimator input with only driving usage. -/
def inputMilesOnly : CarbonEstimateInput :=
  { weeklyMilesDriven := 1
    electricityKwhPerMonth := 0
    homeHeating := HomeHeating.other
    flightsShortHaulPerYear := 0 }

/-- Validated answers of the worked example. -/
def quizExample : QuizAnswers :=
  { diet := Diet.omnivore
    weeklyMilesDriven := 50
    electricityKwhPerMonth := 400
    homeHeating := HomeHeating.electric
    flightsShortHaulPerYear := 2
    recyclingHabit := RecyclingHabit.often
    transportMode := TransportMode.mixed }

/-- Raw form values of the worked example. -/
def rawExample : RawQuiz :=
  { diet := "omnivore"
    weeklyMilesDriven := some 50
    electricityKwhPerMonth := some 400
    homeHeating := "electric"
    flightsShortHaulPerYear := some 2
    recyclingHabit := "often"
    transportMode := "mixed" }

/-- Raw form values with an invalid diet answer. -/
def rawBadDiet : RawQuiz :=
  { diet := "invalid-diet"
    weeklyMilesDriven := some 50
    electricityKwhPerMonth := some 400
    homeHeating := "electric"
    flightsShortHaulPerYear := some 2
    recyclingHabit := "often"
    transportMode := "mixed" }

/-- A vegan answer set with zero flights. -/
def quizVegan : QuizAnswers :=
  { diet := Diet.vegan
    weeklyMilesDriven := 0
    electricityKwhPerMonth := 0
    homeHeating := HomeHeating.other
    flightsShortHaulPerYear := 0
    recyclingHabit := RecyclingHabit.always
    transportMode := TransportMode.bike_walk }

/-- The empty geolocation record. -/
def geoEmpty : GeoLocation :=
  { ip := none, city := none, region := none, country := none }

/-- Advice environment with the completion credential configured. -/
def aiEnvWithKey : AiEnv :=
  { openaiApiKey := some ("test-openai-key"), openaiModel := none, useFreeAi := false }

/-- Advice environment with the completion credential missing. -/
def aiEnvNoKey : AiEnv :=
  { openaiApiKey := none, openaiModel := none, useFreeAi := false }

/-- A fully configured server environment. -/
def serverEnvExample : ServerEnv := { carbon := envWithKey, ai := aiEnvWithKey }

/-- A world in which every outbound call fails. -/
def worldAllFail : RemoteWorld :=
  { geo := GeoOutcome.failure
    drivingNet := NetResult.netError
    electricityNet := NetResult.netError
    completion := CompletionOutcome.failure }

/-- An estimator stub that always rejects. -/
def estFnFail : CarbonEstimateInput → Except String EstimateView :=
  fun _ => Except.error ("estimator down")

/-- An advice stub that always rejects. -/
def adviceFnFail : QuizAnswers → String → Option Int → Except String String :=
  fun _ _ _ => Except.error ("ai down")

end GreenSteps

namespace GreenSteps

/-! ## Helper lemmas -/

/-- Each part contributes to the running total exactly the sum of the
breakdown values it appends (driving block). -/
theorem drivingPart_snd_sum (env : CarbonEnv) (net : NetResult)
    (input : CarbonEstimateInput) :
    (((drivingPart env net input).1.map Prod.snd).sum)
      = (drivingPart env net input).2 := by
  unfold drivingPart
  split <;> simp

/-- Electricity block: appended values sum to the contributed total. -/
theorem electricityPart_snd_sum (env : CarbonEnv) (net : NetResult)
    (input : CarbonEstimateInput) :
    (((electricityPart env net input).1.map Prod.snd).sum)
      = (electricityPart env net input).2 := by
  unfold electricityPart
  split <;> simp

/-- Heating block: appended values sum to the contributed total. -/
theorem heatingPart_snd_sum (input : CarbonEstimateInput) :
    (((heatingPart input).1.map Prod.snd).sum) = (heatingPart input).2 := by
  unfold heatingPart
  cases input.homeHeating <;> simp

/-- Flights block: appended values sum to the contributed total. -/
theorem flightsPart_snd_sum (input : CarbonEstimateInput) :
    (((flightsPart input).1.map Prod.snd).sum) = (flightsPart input).2 := by
  unfold flightsPart
  split <;> simp

/-- The sum of all breakdown values equals the running total the source
accumulates alongside the breakdown. -/
theorem estimate_breakdown_sum (env : CarbonEnv)
    (dn en : NetResult) (input : CarbonEstimateInput) :
    (((estimateCarbon env dn en input).1.breakdown.map Prod.snd).sum)
      = (drivingPart env dn input).2 + (electricityPart env en input).2
        + (heatingPart input).2 + (flightsPart input).2 := by
  unfold estimateCarbon
  simp [drivingPart_snd_sum, electricityPart_snd_sum, heatingPart_snd_sum,
    flightsPart_snd_sum]
  ring

/-- The returned total is the clamp of the rounded running total. -/
theorem estimate_kg_eq (env : CarbonEnv) (dn en : NetResult)
    (input : CarbonEstimateInput) :
    (estimateCarbon env dn en input).1.kgCO2ePerYear
      = max 0 (round ((drivingPart env dn input).2 + (electricityPart env en input).2
          + (heatingPart input).2 + (flightsPart input).2)) := rfl

/-- With positive driving usage, the driving entry carries the remote value
when one came back and the fallback formula otherwise. -/
theorem lookup_driving_pos (env : CarbonEnv) (dn en : NetResult)
    (input : CarbonEstimateInput) (hm : 0 < input.weeklyMilesDriven) :
    (estimateCarbon env dn en input).1.breakdown.lookup ("driving")
      = some (match postCarbon env dn with
          | Except.ok data =>
              data.getD (input.weeklyMilesDriven * 52 * (404 / 1000 : Rat))
          | Except.error _ =>
              input.weeklyMilesDriven * 52 * (404 / 1000 : Rat)) := by
  unfold estimateCarbon drivingPart
  rw [if_pos hm]
  cases hpost : postCarbon env dn with
  | ok data => cases data <;> simp [List.lookup]
  | error e => simp [List.lookup]

/-- The driving block appends either its one entry or nothing. -/
theorem drivingPart_shape (env : CarbonEnv) (net : NetResult)
    (input : CarbonEstimateInput) :
    (drivingPart env net input).1
        = [("driving", (drivingPart env net input).2)]
      ∨ (drivingPart env net input).1 = [] := by
  unfold drivingPart
  split
  · left; rfl
  · right; rfl

/-- The electricity block appends either its one entry or nothing. -/
theorem electricityPart_shape (env : CarbonEnv) (net : NetResult)
    (input : CarbonEstimateInput) :
    (electricityPart env net input).1
        = [("electricity", (electricityPart env net input).2)]
      ∨ (electricityPart env net input).1 = [] := by
  unfold electricityPart
  split
  · left; rfl
  · right; rfl

/-- The heating block appends either its one entry or nothing. -/
theorem heatingPart_shape (input : CarbonEstimateInput) :
    (heatingPart input).1 = [("heating", (heatingPart input).2)]
      ∨ (heatingPart input).1 = [] := by
  unfold heatingPart
  cases input.homeHeating
  · left; rfl
  · left; rfl
  · left; rfl
  · right; rfl

/-- The flights block appends either its one entry or nothing. -/
theorem flightsPart_shape (input : CarbonEstimateInput) :
    (flightsPart input).1 = [("flights", (flightsPart input).2)]
      ∨ (flightsPart input).1 = [] := by
  unfold flightsPart
  split
  · left; rfl
  · right; rfl

/-- With no driving usage, no category of the breakdown is keyed
`driving`. -/
theorem lookup_driving_zero (env : CarbonEnv) (dn en : NetResult)
    (input : CarbonEstimateInput) (hm : ¬ 0 < input.weeklyMilesDriven) :
    (estimateCarbon env dn en input).1.breakdown.lookup ("driving") = none := by
  have hd : (drivingPart env dn input).1 = [] := by
    unfold drivingPart
    rw [if_neg hm]
  have he := electricityPart_shape env en input
  have hh := heatingPart_shape input
  have hf := flightsPart_shape input
  unfold estimateCarbon
  dsimp only
  rcases he with he | he <;> rcases hh with hh | hh <;> rcases hf with hf | hf <;>
    rw [hd, he, hh, hf] <;> rfl

/-- With positive electricity usage, the electricity block appends exactly
its one entry, carrying the remote value when one came back and the
fallback formula otherwise. -/
theorem electricityPart_fst_pos (env : CarbonEnv) (en : NetResult)
    (input : CarbonEstimateInput) (hm : 0 < input.electricityKwhPerMonth) :
    (electricityPart env en input).1
      = [("electricity",
          match postCarbon env en with
          | Except.ok data =>
              data.getD (input.electricityKwhPerMonth * 12 * (4 / 10 : Rat))
          | Except.error _ =>
              input.electricityKwhPerMonth * 12 * (4 / 10 : Rat))] := by
  unfold electricityPart
  rw [if_pos hm]

/-- With positive electricity usage, the electricity entry carries the
remote value when one came back and the fallback formula otherwise. -/
theorem lookup_electricity_pos (env : CarbonEnv) (dn en : NetResult)
    (input : CarbonEstimateInput) (hm : 0 < input.electricityKwhPerMonth) :
    (estimateCarbon env dn en input).1.breakdown.lookup ("electricity")
      = some (match postCarbon env en with
          | Except.ok data =>
              data.getD (input.electricityKwhPerMonth * 12 * (4 / 10 : Rat))
          | Except.error _ =>
              input.electricityKwhPerMonth * 12 * (4 / 10 : Rat)) := by
  have hd := drivingPart_shape env dn input
  have he := electricityPart_fst_pos env en input hm
  unfold estimateCarbon
  dsimp only
  rcases hd with hd | hd <;> rw [hd, he] <;> rfl

/-- Driving entries are positive when remote driving values are. -/
theorem drivingPart_pos (env : CarbonEnv) (dn : NetResult)
    (input : CarbonEstimateInput)
    (hd : ∀ kg, postCarbon env dn = Except.ok (some kg) → 0 < kg) :
    ∀ p ∈ (drivingPart env dn input).1, 0 < p.2 := by
  unfold drivingPart
  split
  next hm =>
    intro p hp
    simp only [List.mem_singleton] at hp
    subst hp
    dsimp only
    cases hpost : postCarbon env dn with
    | error e =>
      simp only [hpost]
      exact mul_pos (mul_pos hm (by norm_num)) (by norm_num)
    | ok data =>
      cases data with
      | none =>
        simp only [hpost, Option.getD_none]
        exact mul_pos (mul_pos hm (by norm_num)) (by norm_num)
      | some kg =>
        simp only [hpost, Option.getD_some]
        exact hd kg hpost
  next =>
    intro p hp
    simp at hp

/-- Electricity entries are positive when remote electricity values are. -/
theorem electricityPart_pos (env : CarbonEnv) (en : NetResult)
    (input : CarbonEstimateInput)
    (he : ∀ kg, postCarbon env en = Except.ok (some kg) → 0 < kg) :
    ∀ p ∈ (electricityPart env en input).1, 0 < p.2 := by
  unfold electricityPart
  split
  next hm =>
    intro p hp
    simp only [List.mem_singleton] at hp
    subst hp
    dsimp only
    cases hpost : postCarbon env en with
    | error e =>
      simp only [hpost]
      exact mul_pos (mul_pos hm (by norm_num)) (by norm_num)
    | ok data =>
      cases data with
      | none =>
        simp only [hpost, Option.getD_none]
        exact mul_pos (mul_pos hm (by norm_num)) (by norm_num)
      | some kg =>
        simp only [hpost, Option.getD_some]
        exact he kg hpost
  next =>
    intro p hp
    simp at hp

/-- Heating entries are positive constants. -/
theorem heatingPart_pos (input : CarbonEstimateInput) :
    ∀ p ∈ (heatingPart input).1, 0 < p.2 := by
  unfold heatingPart
  cases input.homeHeating <;> intro p hp <;>
    simp only [List.mem_singleton, List.not_mem_nil] at hp
  · subst hp; norm_num
  · subst hp; norm_num
  · subst hp; norm_num

/-- Flight entries are positive. -/
theorem flightsPart_pos (input : CarbonEstimateInput) :
    ∀ p ∈ (flightsPart input).1, 0 < p.2 := by
  unfold flightsPart
  split
  next hm =>
    intro p hp
    simp only [List.mem_singleton] at hp
    subst hp
    dsimp only
    exact_mod_cast mul_pos hm (by norm_num)
  next =>
    intro p hp
    simp at hp

/-! ## Claim theorems -/

/-- C1 counterexample: on the spec example input, with the mocked remote
values 2100 and 1920, `estimateCarbon` does NOT return total 5000 (it
returns the sum of the breakdown, 5220). -/
theorem example_total_not_5000 :
    (estimateCarbon envWithKey (NetResult.ok (some 2100))
      (NetResult.ok (some 1920)) exampleInput).1.kgCO2ePerYear ≠ 5000 := by
  norm_num [estimateCarbon, drivingPart, electricityPart, heatingPart,
    flightsPart, postCarbon, envWithKey, exampleInput, round_eq]

/-- C1 amended: on the spec example input with mocked remote values 2100
and 1920, `estimateCarbon` returns total 5220 = 2100 + 1920 + 700 + 500
and the breakdown of the claim. -/
theorem example_total_5220 :
    (estimateCarbon envWithKey (NetResult.ok (some 2100))
        (NetResult.ok (some 1920)) exampleInput).1
      = { kgCO2ePerYear := 5220
          breakdown := [("driving", 2100), ("electricity", 1920),
            ("heating", 700), ("flights", 500)] } := by
  norm_num [estimateCarbon, drivingPart, electricityPart, heatingPart,
    flightsPart, postCarbon, envWithKey, exampleInput, round_eq]

/-- C3 counterexample: with the carbon credential missing and positive
driving usage, `estimateCarbon` does not raise: the promise resolves with
the fallback figures (52 miles gives 52 × 0.404 = 21.008, rounded 21). -/
theorem missing_key_resolves :
    estimateCarbonE envNoKey (NetResult.ok (some 5)) (NetResult.ok (some 5))
        inputMilesOnly
      = Except.ok ({ kgCO2ePerYear := 21
                     breakdown := [("driving", (2626 : Rat) / 125)] },
          { driving := true, electricity := false }) := by
  norm_num [estimateCarbonE, estimateCarbon, drivingPart, electricityPart,
    heatingPart, flightsPart, postCarbon, envNoKey, inputMilesOnly, round_eq]

/-- C3 amended: with the carbon credential missing and driving or
electricity usage positive, a missing credential is treated like any other
failed call: the `Missing CARBON_INTERFACE_API_KEY` error thrown by
`postCarbon` is caught inside `estimateCarbon`, the promise resolves, and
each affected category carries its fallback formula (driving
`annualMiles × 0.404`, electricity `annualKwh × 0.4`). -/
theorem missing_key_fallback (dn en : NetResult) (input : CarbonEstimateInput)
    (h : 0 < input.weeklyMilesDriven ∨ 0 < input.electricityKwhPerMonth) :
    estimateCarbonE envNoKey dn en input
        = Except.ok (estimateCarbon envNoKey dn en input)
    ∧ (0 < input.weeklyMilesDriven →
        (estimateCarbon envNoKey dn en input).1.breakdown.lookup ("driving")
          = some (input.weeklyMilesDriven * 52 * (404 / 1000 : Rat)))
    ∧ (0 < input.electricityKwhPerMonth →
        (estimateCarbon envNoKey dn en input).1.breakdown.lookup ("electricity")
          = some (input.electricityKwhPerMonth * 12 * (4 / 10 : Rat))) := by
  have hpostd : postCarbon envNoKey dn
      = Except.error ("Missing CARBON_INTERFACE_API_KEY") := rfl
  have hposte : postCarbon envNoKey en
      = Except.error ("Missing CARBON_INTERFACE_API_KEY") := rfl
  refine ⟨rfl, ?_, ?_⟩
  · intro hm
    rw [lookup_driving_pos envNoKey dn en input hm, hpostd]
  · intro hm
    rw [lookup_electricity_pos envNoKey dn en input hm, hposte]

/-- C3 amended, witnessed at the spec example input, where both driving
and electricity usage are positive and both categories fall back. -/
theorem missing_key_fallback_witness :
    estimateCarbonE envNoKey NetResult.netError NetResult.netError
        exampleInput
      = Except.ok (estimateCarbon envNoKey NetResult.netError
          NetResult.netError exampleInput)
    ∧ (estimateCarbon envNoKey NetResult.netError NetResult.netError
          exampleInput).1.breakdown.lookup ("driving")
        = some (exampleInput.weeklyMilesDriven * 52 * (404 / 1000 : Rat))
    ∧ (estimateCarbon envNoKey NetResult.netError NetResult.netError
          exampleInput).1.breakdown.lookup ("electricity")
        = some (exampleInput.electricityKwhPerMonth * 12 * (4 / 10 : Rat)) := by
  have h := missing_key_fallback NetResult.netError NetResult.netError
    exampleInput (Or.inl (by decide))
  exact ⟨h.1, h.2.1 (by decide), h.2.2 (by decide)⟩

/-- C4: with positive driving usage the driving call is issued and the
driving entry equals the remote value when the call succeeds with a
`carbon_kg` field, and the fallback `annualMiles × 0.404` when the call
fails or the field is missing; with zero driving usage there is no driving
entry and no driving call. -/
theorem driving_entry_spec (env : CarbonEnv) (dn en : NetResult)
    (input : CarbonEstimateInput) :
    (0 < input.weeklyMilesDriven →
      (estimateCarbon env dn en input).2.driving = true
      ∧ (∀ kg, postCarbon env dn = Except.ok (some kg) →
          (estimateCarbon env dn en input).1.breakdown.lookup ("driving")
            = some kg)
      ∧ ((postCarbon env dn = Except.ok none
            ∨ ∃ e, postCarbon env dn = Except.error e) →
          (estimateCarbon env dn en input).1.breakdown.lookup ("driving")
            = some (input.weeklyMilesDriven * 52 * (404 / 1000 : Rat))))
    ∧ (input.weeklyMilesDriven = 0 →
        (estimateCarbon env dn en input).1.breakdown.lookup ("driving") = none
        ∧ (estimateCarbon env dn en input).2.driving = false) := by
  constructor
  · intro hm
    refine ⟨by simp [estimateCarbon, hm], ?_, ?_⟩
    · intro kg hp
      rw [lookup_driving_pos env dn en input hm, hp]
      rfl
    · intro hfail
      rw [lookup_driving_pos env dn en input hm]
      rcases hfail with hp | ⟨e, hp⟩ <;> (rw [hp]; try rfl)
  · intro h0
    have hm : ¬ 0 < input.weeklyMilesDriven := by
      rw [h0]
      exact lt_irrefl 0
    exact ⟨lookup_driving_zero env dn en input hm, by simp [estimateCarbon, hm]⟩

/-- C4, witnessed on the spec example (driving call succeeds with 2100). -/
theorem driving_entry_spec_witness :
    (estimateCarbon envWithKey (NetResult.ok (some 2100))
        (NetResult.ok (some 1920)) exampleInput).1.breakdown.lookup ("driving")
      = some 2100
    ∧ (estimateCarbon envWithKey (NetResult.ok (some 2100))
        (NetResult.ok (some 1920)) exampleInput).2.driving = true := by
  have h := (driving_entry_spec envWithKey (NetResult.ok (some 2100))
      (NetResult.ok (some 1920)) exampleInput).1 (by decide)
  exact ⟨h.2.1 2100 rfl, h.1⟩

/-- C5: the returned total is exactly `max 0 (round (sum of breakdown))`,
hence a non-negative integer; and provided every breakdown value is
non-negative it exceeds the arithmetic sum by at most the rounding error
of one half. -/
theorem carbon_total_rounded_clamped (env : CarbonEnv) (dn en : NetResult)
    (input : CarbonEstimateInput) :
    0 ≤ (estimateCarbon env dn en input).1.kgCO2ePerYear
    ∧ (estimateCarbon env dn en input).1.kgCO2ePerYear
        = max 0 (round
            (((estimateCarbon env dn en input).1.breakdown.map Prod.snd).sum))
    ∧ ((∀ v ∈ (estimateCarbon env dn en input).1.breakdown.map Prod.snd,
          (0 : Rat) ≤ v) →
        (((estimateCarbon env dn en input).1.kgCO2ePerYear : Int) : Rat)
          ≤ ((estimateCarbon env dn en input).1.breakdown.map Prod.snd).sum
            + 1 / 2) := by
  have hsum := estimate_breakdown_sum env dn en input
  have hkg := estimate_kg_eq env dn en input
  refine ⟨?_, ?_, ?_⟩
  · rw [hkg]
    exact le_max_left 0 _
  · rw [hkg, hsum]
  · intro hpos
    have h0 : (0 : Rat)
        ≤ ((estimateCarbon env dn en input).1.breakdown.map Prod.snd).sum :=
      List.sum_nonneg hpos
    set S := ((estimateCarbon env dn en input).1.breakdown.map Prod.snd).sum
      with hS
    have hround : (estimateCarbon env dn en input).1.kgCO2ePerYear
        = max 0 (round S) := by
      rw [hkg, hsum]
    have h1 : (0 : Int) ≤ round S := by
      rw [round_eq]
      exact Int.le_floor.mpr (by push_cast; linarith)
    rw [hround, max_eq_right h1, round_eq]
    exact Int.floor_le (S + 1 / 2)

/-- C5, witnessed on the spec example where every breakdown value is
non-negative. -/
theorem carbon_total_rounded_clamped_witness :
    (((estimateCarbon envWithKey (NetResult.ok (some 2100))
          (NetResult.ok (some 1920)) exampleInput).1.kgCO2ePerYear : Int) : Rat)
      ≤ ((estimateCarbon envWithKey (NetResult.ok (some 2100))
          (NetResult.ok (some 1920)) exampleInput).1.breakdown.map Prod.snd).sum
        + 1 / 2 :=
  (carbon_total_rounded_clamped envWithKey (NetResult.ok (some 2100))
      (NetResult.ok (some 1920)) exampleInput).2.2
    (by norm_num [estimateCarbon, drivingPart, electricityPart, heatingPart,
      flightsPart, postCarbon, envWithKey, exampleInput])

/-- C5 counterexample: when a remote call succeeds with a negative
`carbon_kg`, the clamped total 0 exceeds the breakdown sum by far more
than rounding error. -/
theorem carbon_total_not_within_rounding :
    ¬ ((((estimateCarbon envWithKey (NetResult.ok (some (-1000)))
            (NetResult.ok none) inputMilesOnly).1.kgCO2ePerYear : Int) : Rat)
        ≤ ((estimateCarbon envWithKey (NetResult.ok (some (-1000)))
            (NetResult.ok none) inputMilesOnly).1.breakdown.map Prod.snd).sum
          + 1 / 2) := by
  norm_num [estimateCarbon, drivingPart, electricityPart, heatingPart,
    flightsPart, postCarbon, envWithKey, inputMilesOnly, round_eq]

/-- C6 amended: provided every successful remote `carbon_kg` is positive,
every breakdown value is positive; in particular no present category
carries the value 0 (zero-valued categories exist only as absent keys). -/
theorem breakdown_entries_positive (env : CarbonEnv) (dn en : NetResult)
    (input : CarbonEstimateInput)
    (hd : ∀ kg, postCarbon env dn = Except.ok (some kg) → 0 < kg)
    (he : ∀ kg, postCarbon env en = Except.ok (some kg) → 0 < kg) :
    ∀ p ∈ (estimateCarbon env dn en input).1.breakdown, 0 < p.2 ∧ p.2 ≠ 0 := by
  intro p hp
  have hsplit : (estimateCarbon env dn en input).1.breakdown
      = (drivingPart env dn input).1 ++ (electricityPart env en input).1
        ++ (heatingPart input).1 ++ (flightsPart input).1 := rfl
  rw [hsplit] at hp
  simp only [List.mem_append] at hp
  have hpos : 0 < p.2 := by
    rcases hp with ((h | h) | h) | h
    · exact drivingPart_pos env dn input hd p h
    · exact electricityPart_pos env en input he p h
    · exact heatingPart_pos input p h
    · exact flightsPart_pos input p h
  exact ⟨hpos, ne_of_gt hpos⟩

/-- C6 amended, witnessed on the spec example (remote values 2100 and
1920 are positive): the driving entry is present and positive. -/
theorem breakdown_entries_positive_witness :
    ("driving", (2100 : Rat)) ∈ (estimateCarbon envWithKey
        (NetResult.ok (some 2100)) (NetResult.ok (some 1920))
        exampleInput).1.breakdown
    ∧ (0 : Rat) < ("driving", (2100 : Rat)).2
    ∧ ("driving", (2100 : Rat)).2 ≠ 0 := by
  have hmem : ("driving", (2100 : Rat)) ∈ (estimateCarbon envWithKey
      (NetResult.ok (some 2100)) (NetResult.ok (some 1920))
      exampleInput).1.breakdown := by
    norm_num [estimateCarbon, drivingPart, electricityPart, heatingPart,
      flightsPart, postCarbon, envWithKey, exampleInput]
  have h := breakdown_entries_positive envWithKey (NetResult.ok (some 2100))
    (NetResult.ok (some 1920)) exampleInput
    (by intro kg h; simp [postCarbon, envWithKey] at h; subst h; norm_num)
    (by intro kg h; simp [postCarbon, envWithKey] at h; subst h; norm_num)
    ("driving", (2100 : Rat)) hmem
  exact ⟨hmem, h.1, h.2⟩

/-- C6 counterexample: when a remote call succeeds with a negative
`carbon_kg`, the breakdown carries a negative value (and when it succeeds
with 0, a present zero-valued entry), so the invariant fails for arbitrary
remote numbers. -/
theorem breakdown_negative_counterexample :
    ¬ (∀ p ∈ (estimateCarbon envWithKey (NetResult.ok (some (-1000)))
        (NetResult.ok none) inputMilesOnly).1.breakdown, 0 ≤ p.2) := by
  norm_num [estimateCarbon, drivingPart, electricityPart, heatingPart,
    flightsPart, postCarbon, envWithKey, inputMilesOnly]

/-- Shape of the orchestrator result on validated input: a success record
echoing the parsed quiz and the location, with the estimate nulled when
the estimator rejected and the apology text when the advice call
rejected. -/
theorem core_ok_shape
    (estFn : CarbonEstimateInput → Except String EstimateView)
    (adviceFn : QuizAnswers → String → Option Int → Except String String)
    (geo : GeoLocation) (raw : RawQuiz) (quiz : QuizAnswers)
    (h : quizSafeParse raw = Except.ok quiz) :
    ∃ est tips,
      processQuizCore estFn adviceFn geo raw
        = ProcessQuizResult.success quiz geo est tips
      ∧ ((∃ e, estFn (quizToCarbonInput quiz) = Except.error e) → est = none)
      ∧ ((∃ e, adviceFn quiz (locationSummary geo) (est.map (fun v => v.kg))
            = Except.error e) → tips = apologyText) := by
  unfold processQuizCore
  rw [h]
  dsimp only
  refine ⟨_, _, rfl, ?_, ?_⟩
  · rintro ⟨e, he⟩
    rw [he]
  · rintro ⟨e, he⟩
    rw [he]

/-- C2: for every raw record that validates, the orchestrator returns the
success variant whatever the estimator, geolocation and advice calls do:
a rejecting estimator yields a null estimate, a rejecting advice call
yields the fixed apology text, and no error reaches the caller. -/
theorem processQuizAction_always_succeeds
    (estFn : CarbonEstimateInput → Except String EstimateView)
    (adviceFn : QuizAnswers → String → Option Int → Except String String)
    (geo : GeoLocation) (raw : RawQuiz) (quiz : QuizAnswers)
    (h : quizSafeParse raw = Except.ok quiz) :
    (∃ est tips,
      processQuizCore estFn adviceFn geo raw
        = ProcessQuizResult.success quiz geo est tips
      ∧ ((∃ e, estFn (quizToCarbonInput quiz) = Except.error e) → est = none)
      ∧ ((∃ e, adviceFn quiz (locationSummary geo) (est.map (fun v => v.kg))
            = Except.error e) → tips = apologyText))
    ∧ (∀ env world, ∃ est tips,
        processQuizAction env world raw
          = ProcessQuizResult.success quiz (lookupGeo world.geo) est tips) := by
  refine ⟨core_ok_shape estFn adviceFn geo raw quiz h, ?_⟩
  intro env world
  obtain ⟨est, tips, heq, -, -⟩ := core_ok_shape
    (fun i =>
      (estimateCarbonE env.carbon world.drivingNet world.electricityNet i).map
        (fun p => { kg := p.1.kgCO2ePerYear, breakdown := p.1.breakdown }))
    (fun q s kg => generateAdvice env.ai world.completion q (some s) kg)
    (lookupGeo world.geo) raw quiz h
  exact ⟨est, tips, heq⟩

/-- C2, witnessed with an estimator stub and an advice stub that always
reject: the submission still succeeds, with a null estimate and the
apology text. -/
theorem processQuizAction_always_succeeds_witness :
    processQuizCore estFnFail adviceFnFail geoEmpty rawExample
        = ProcessQuizResult.success quizExample geoEmpty none apologyText
    ∧ ∃ est tips, processQuizAction serverEnvExample worldAllFail rawExample
        = ProcessQuizResult.success quizExample (lookupGeo worldAllFail.geo)
            est tips := by
  obtain ⟨⟨est, tips, heq, hest, htips⟩, hact⟩ :=
    processQuizAction_always_succeeds estFnFail adviceFnFail geoEmpty
      rawExample quizExample rfl
  have h1 : est = none := hest ⟨"estimator down", rfl⟩
  have h2 : tips = apologyText := htips ⟨"ai down", rfl⟩
  rw [h1, h2] at heq
  exact ⟨heq, hact serverEnvExample worldAllFail⟩

/-- C7: on every raw record that fails validation, the orchestrator
returns the failure variant immediately, carrying the non-empty collected
field errors, and issues no outbound call at all. -/
theorem processQuizCore_invalid_input (raw : RawQuiz)
    (issues : List (String × String))
    (h : quizSafeParse raw = Except.error issues) :
    issues ≠ []
    ∧ (∀ estFn adviceFn geo,
        processQuizCore estFn adviceFn geo raw
          = ProcessQuizResult.failure ("Invalid input") issues)
    ∧ (∀ env world, processQuizCalls env world raw
          = { geoCalled := false, drivingCalled := false
              electricityCalled := false, completionCalled := false }) := by
  refine ⟨?_, ?_, ?_⟩
  · intro hnil
    unfold quizSafeParse at h
    split at h
    · simp at h
    next hne =>
      injection h with h2
      exact hne (h2.trans hnil)
  · intro estFn adviceFn geo
    unfold processQuizCore
    rw [h]
  · intro env world
    unfold processQuizCalls
    rw [h]

/-- C7, witnessed on an invalid diet value: the failure carries the
field-error entry keyed `diet` and no call is issued. -/
theorem processQuizCore_invalid_input_witness :
    processQuizCore estFnFail adviceFnFail geoEmpty rawBadDiet
        = ProcessQuizResult.failure ("Invalid input")
            [("diet", "Invalid enum value")]
    ∧ processQuizCalls serverEnvExample worldAllFail rawBadDiet
        = { geoCalled := false, drivingCalled := false
            electricityCalled := false, completionCalled := false } := by
  have h := processQuizCore_invalid_input rawBadDiet
      [("diet", "Invalid enum value")] rfl
  exact ⟨h.2.1 estFnFail adviceFnFail geoEmpty,
    h.2.2 serverEnvExample worldAllFail⟩

/-- C8: the local advice output is the header followed by the bulleted
selected tips; at most 3 tips are kept, in descending impact order; the
diet tip is filtered out for vegans and the flight tip at zero flights. -/
theorem generateLocalAdvice_spec (quiz : QuizAnswers) (loc : Option String)
    (kg : Option Int) :
    generateLocalAdvice quiz loc kg
        = localHeader loc kg ++ "\n\n"
          ++ String.intercalate ("\n")
              (((sortTipsDesc (localTips quiz)).take 3).map
                (fun t => "• " ++ t.text))
    ∧ ((sortTipsDesc (localTips quiz)).take 3).length ≤ 3
    ∧ List.Sorted (fun a b => b ≤ a)
        (((sortTipsDesc (localTips quiz)).take 3).map Tip.impact)
    ∧ (quiz.diet = Diet.vegan → dietTips quiz = [])
    ∧ (quiz.flightsShortHaulPerYear = 0 → flightTips quiz = []) := by
  refine ⟨rfl, ?_, ?_, ?_, ?_⟩
  · rw [List.length_take]
    exact min_le_left _ _
  · have hs : List.Sorted tipGE (sortTipsDesc (localTips quiz)) :=
      List.sorted_insertionSort tipGE (localTips quiz)
    have ht : List.Pairwise tipGE ((sortTipsDesc (localTips quiz)).take 3) :=
      List.Pairwise.sublist (List.take_sublist 3 _) hs
    exact List.pairwise_map.mpr ht
  · intro hv
    simp [dietTips, hv]
  · intro hf
    simp [flightTips, hf]

/-- C8, witnessed at a vegan answer set with zero flights: both
conditional tips are filtered out. -/
theorem generateLocalAdvice_spec_witness :
    dietTips quizVegan = [] ∧ flightTips quizVegan = [] := by
  have h := generateLocalAdvice_spec quizVegan none none
  exact ⟨h.2.2.2.1 rfl, h.2.2.2.2 rfl⟩

/-- C9: the two `generateAdvice` implementations disagree. With a
configured key and a failing completion call, `src/lib/ai.ts` falls back
to the local template output while `src/unnamed/part_004` rejects; with a
missing key the former produces the local output while the latter returns
a fixed literal string. -/
theorem generateAdvice_implementations_disagree :
    generateAdvice aiEnvWithKey CompletionOutcome.failure quizVegan none none
        = Except.ok (generateLocalAdvice quizVegan none none)
    ∧ generateAdviceAlt aiEnvWithKey CompletionOutcome.failure quizVegan
          none none
        = Except.error ("OpenAI request failed")
    ∧ generateAdvice aiEnvNoKey CompletionOutcome.failure quizVegan none none
        = Except.ok (generateLocalAdvice quizVegan none none)
    ∧ generateAdviceAlt aiEnvNoKey CompletionOutcome.failure quizVegan
          none none
        = Except.ok ("Set OPENAI_API_KEY to enable AI-generated tips.")
    ∧ generateLocalAdvice quizVegan none none
        ≠ "Set OPENAI_API_KEY to enable AI-generated tips."
    ∧ (Except.ok (generateLocalAdvice quizVegan none none)
          : Except String String)
        ≠ Except.error ("OpenAI request failed") := by
  refine ⟨rfl, rfl, rfl, rfl, by decide, by simp⟩

/-- C10: a zero carbon total renders as `N/A` in both the local header
and the remote prompt, exactly like an absent total. -/
theorem zero_total_reported_na (quiz : QuizAnswers) (loc : Option String) :
    generateLocalAdvice quiz loc (some 0) = generateLocalAdvice quiz loc none
    ∧ adviceUserPrompt quiz loc (some 0) = adviceUserPrompt quiz loc none
    ∧ localFootprintText (some 0) = "N/A"
    ∧ promptFootprintText (some 0) = "N/A" :=
  ⟨rfl, rfl, rfl, rfl⟩

end GreenSteps
